import Mathlib

/-!
Verification development for the ml-ui repository.

The definitions below are shallow embeddings of the JavaScript source files
(`src/frontend/src/...`). Machine-integer and floating-point values are
modelled as `Nat`/`Int`/`ℚ`/`ℝ`; JavaScript `null` is modelled as `Option`.
Definitions marked "Modelled from the spec" embed components that the spec
describes but that are absent from the repository's source tree.
-/

namespace MlUi

/-! ## EffectTimeline (`src/frontend/src/components/visualization/EffectTimeline.jsx`)

The component reduces `data.effects` (a boolean series) to a list of
`{start, end}` objects, `end` being `null` while a period is open. -/

/-- An effect period object `{ start: idx, end: null | idx }` as pushed by the
reduction in `EffectTimeline.jsx` (and as described by the spec's
`EffectSegment`, whose `endIndex` is exclusive and nullable while open).
`endIdx` stands for the source's `end`, which is a Lean keyword. -/
structure Segment where
  start : Nat
  endIdx : Option Nat
deriving DecidableEq, Repr

/-- JavaScript truthiness test of the `end` field: `!acc[acc.length-1].end` is
`true` exactly when `end` is `null` or the number `0`. -/
def jsEndFalsy : Option Nat → Bool
  | none => true
  | some n => n == 0

/-- The `end` field of the last element of the accumulator,
`acc[acc.length - 1].end` (only inspected under a non-emptiness guard in the
source; on an empty list it is irrelevant). -/
def lastEnd (acc : List Segment) : Option Nat :=
  match acc.getLast? with
  | none => none
  | some s => s.endIdx

/-- In-place mutation `acc[acc.length - 1].end = idx` of the source, as a pure
update of the last element of the list. -/
def setLastEnd : List Segment → Nat → List Segment
  | [], _ => []
  | [s], i => [{ s with endIdx := some i }]
  | s :: rest, i => s :: setLastEnd rest i

/-- One step of the reduction callback in `EffectTimeline.jsx`:
if `curr && (!acc.length || !acc[acc.length-1].end)` push `{start: idx, end: null}`;
else if `!curr && acc.length && !acc[acc.length-1].end` set the last `end` to `idx`;
else return `acc` unchanged. -/
def effectStep (acc : List Segment) (curr : Bool) (idx : Nat) : List Segment :=
  if curr && (acc.length == 0 || jsEndFalsy (lastEnd acc)) then
    acc ++ [⟨idx, none⟩]
  else if !curr && acc.length != 0 && jsEndFalsy (lastEnd acc) then
    setLastEnd acc idx
  else
    acc

/-- `Array.prototype.reduce` over the effects series with index argument. -/
def effectReduceFrom : List Bool → Nat → List Segment → List Segment
  | [], _, acc => acc
  | curr :: rest, idx, acc => effectReduceFrom rest (idx + 1) (effectStep acc curr idx)

/-- `effectPeriods` of `EffectTimeline.jsx`: the reduction of `data.effects`
starting from the empty accumulator. -/
def effectPeriods (effects : List Bool) : List Segment :=
  effectReduceFrom effects 0 []

/-- The props record consumed by `EffectTimeline` (`data.dates`,
`data.returns`, `data.thresholds`, `data.effects`); dates are opaque strings,
numeric series are rationals. -/
structure TimelineData where
  dates : List String
  returns : List ℚ
  thresholds : List ℚ
  effects : List Bool

/-- The segment computation of the component as a function of its whole
`data` prop: it reads only `data.effects`. -/
def computeEffectPeriods (d : TimelineData) : List Segment :=
  effectPeriods d.effects

/-! ### The spec's two-state machine (§4.4 / §9 of the spec)

State `Outside` initially; `Outside → InsideEffect` at the first index where
the condition holds, opening a segment there; `InsideEffect → Outside` at the
first subsequent index where the condition no longer holds, closing the
segment with that index as its exclusive `endIndex`; a segment still open when
the series ends keeps `endIndex = null`. -/

/-- Run of the spec's two-state machine. The `Option Nat` argument is the
machine state: `none` is `Outside`, `some s` is `InsideEffect` with the open
segment's start index `s`. -/
def machineRun : List Bool → Nat → Option Nat → List Segment → List Segment
  | [], _, none, segs => segs
  | [], _, some s, segs => segs ++ [⟨s, none⟩]
  | b :: rest, idx, none, segs =>
      if b then machineRun rest (idx + 1) (some idx) segs
      else machineRun rest (idx + 1) none segs
  | b :: rest, idx, some s, segs =>
      if b then machineRun rest (idx + 1) (some s) segs
      else machineRun rest (idx + 1) none (segs ++ [⟨s, some idx⟩])

/-- Segment list of the spec's two-state machine, starting `Outside` at
index 0 with no segments emitted. -/
def machineSegments (effects : List Bool) : List Segment :=
  machineRun effects 0 none []

/-! ### Segment invariants used by the spec's testable properties -/

/-- The exclusive upper index of a segment's range: its `endIndex` when
closed, the series length when open-ended (the spec's "the effect may be
ongoing" reading of `endIndex = null`). -/
def effEnd (len : Nat) (s : Segment) : Nat :=
  s.endIdx.getD len

/-- Two segments are non-overlapping in index range: one's range ends no later
than the other's starts. -/
def segsDisjointB (len : Nat) (s t : Segment) : Bool :=
  effEnd len s ≤ t.start || effEnd len t ≤ s.start

/-- Boolean pairwise check over a list. -/
def pairwiseB (r : Segment → Segment → Bool) : List Segment → Bool
  | [] => true
  | s :: rest => rest.all (r s) && pairwiseB r rest

/-- Segments ordered by ascending start index. -/
def orderedByStartB : List Segment → Bool
  | [] => true
  | [_] => true
  | s :: t :: rest => s.start ≤ t.start && orderedByStartB (t :: rest)

/-- Every closed segment has `endIndex ≥ startIndex`. -/
def closedEndGeB (segs : List Segment) : Bool :=
  segs.all fun s =>
    match s.endIdx with
    | none => true
    | some e => s.start ≤ e

/-- A segment is faithful to the effects series: every index in its range has
the effect condition `true`, and its closing index (when present) has the
condition `false`. -/
def segFaithfulB (effects : List Bool) (s : Segment) : Bool :=
  ((List.range (effEnd effects.length s - s.start)).all
      fun k => effects.getD (s.start + k) false) &&
  (match s.endIdx with
   | none => true
   | some e => !(effects.getD e false))

/-! ## Analysis store (`src/frontend/src/store/analysisStore.js`)

A module-level zustand store: `create((set) => ({analysisResults: {}, setAnalysisResults,
isLoading: false, setIsLoading, error: null, setError}))`. zustand's `set`
with a partial object merges it into the current state, so each setter
replaces exactly the field it names. -/

/-- JSON-object values are modelled as key/value string pairs; the store's
initial `analysisResults: {}` is the empty list. -/
abbrev AnalysisResultsObj := List (String × String)

/-- The state held by `useAnalysisStore`. -/
structure AnalysisStoreState where
  analysisResults : AnalysisResultsObj
  isLoading : Bool
  error : Option String
deriving DecidableEq

/-- The store's initial state: `analysisResults: {}`, `isLoading: false`,
`error: null`. -/
def initialAnalysisStore : AnalysisStoreState :=
  { analysisResults := [], isLoading := false, error := none }

/-- `setAnalysisResults: (results) => set({ analysisResults: results })`. -/
def setAnalysisResults (results : AnalysisResultsObj) (s : AnalysisStoreState) :
    AnalysisStoreState :=
  { s with analysisResults := results }

/-- `setIsLoading: (loading) => set({ isLoading: loading })`. -/
def setIsLoading (loading : Bool) (s : AnalysisStoreState) : AnalysisStoreState :=
  { s with isLoading := loading }

/-- `setError: (error) => set({ error: error })`. -/
def setError (e : Option String) (s : AnalysisStoreState) : AnalysisStoreState :=
  { s with error := e }

/-! ## DatasetSelector (`src/frontend/src/components/data/DatasetSelector.jsx`) -/

/-- `handleDatasetChange(e, action)` with `selectedDataset = e.target.value`:
on `'add'` it appends (`[...datasets, selectedDataset]`), on `'remove'` it
filters out every entry equal to `selectedDataset`, otherwise the list is
unchanged. -/
def handleDatasetChange (datasets : List String) (selectedDataset : String)
    (action : String) : List String :=
  if action = "add" then datasets ++ [selectedDataset]
  else if action = "remove" then datasets.filter (fun d => d ≠ selectedDataset)
  else datasets

/-- The `value` property of the remove `<button>` element: the button carries
no `value` attribute, so `e.target.value` is the empty string when the click
handler fires on it. -/
def removeButtonValue : String := ""

/-! ## AnalysisControls (`src/frontend/src/components/analysis/AnalysisControls.jsx`) -/

/-- The `params` state of `AnalysisControls` (its `React.useState` initial
object at lines 6–13); JS floats are modelled as rationals. -/
structure ControlsParams where
  assets : List String
  startDate : String
  endDate : String
  analysisType : String
  lambda : ℚ
  windowSize : Nat

/-- The initial `params` object of `AnalysisControls`. -/
def initialControlsParams : ControlsParams :=
  { assets := [], startDate := "", endDate := "", analysisType := "both",
    lambda := 2, windowSize := 30 }

/-- The sensitivity `Slider` props in `AnalysisControls.jsx`: `min={1.0}`. -/
def sliderMin : ℚ := 1

/-- The sensitivity `Slider` props in `AnalysisControls.jsx`: `max={3.0}`. -/
def sliderMax : ℚ := 3

/-- The sensitivity `Slider` props in `AnalysisControls.jsx`: `step={0.1}`. -/
def sliderStep : ℚ := 1 / 10

/-- A lambda value the slider can produce: some whole number of steps above
the minimum, not exceeding the maximum. -/
def SliderProducible (v : ℚ) : Prop :=
  ∃ k : Nat, v = sliderMin + k * sliderStep ∧ v ≤ sliderMax

/-- Modelled from the spec: `ThresholdEstimator.estimate` (§4.3), absent from
the source tree, accepts its `lambda` argument exactly when it lies in
[1.0, 3.0] and otherwise fails with `InvalidParameterError`. This predicate is
`true` exactly on the accepted values. -/
def estimateAccepts (lambda : ℚ) : Bool :=
  1 ≤ lambda && lambda ≤ 3

/-! ## Dashboard (`src/unnamed/part_001`)

`handleAnalysis` POSTs to `/api/analyze` a body built by
`JSON.stringify({window_size: windowSize, features: selectedFeatures})`. -/

/-- JSON values appearing in the analyze request body. -/
inductive JsValue where
  | num (q : ℚ)
  | str (s : String)
  | arr (xs : List String)
deriving DecidableEq

/-- The Dashboard component state feeding `handleAnalysis`
(`windowSize` initially 30, `selectedFeatures` initially `[]`,
`selectedDataset` initially `''`). -/
structure DashboardState where
  windowSize : ℚ
  selectedFeatures : List String
  selectedDataset : String

/-- The JSON body sent by `handleAnalysis` to the analyze endpoint, as its
ordered key/value pairs. -/
def analyzeRequestBody (s : DashboardState) : List (String × JsValue) :=
  [("window_size", .num s.windowSize), ("features", .arr s.selectedFeatures)]

/-- The key set of the body sent by `handleAnalysis`. -/
def analyzeRequestKeys (s : DashboardState) : List String :=
  (analyzeRequestBody s).map Prod.fst

/-- The six field names of the spec's inbound request interface (§6):
`{assetIds, startDate, endDate, windowSize, analysisType, lambda}`. -/
def specRequestFields : List String :=
  ["assetIds", "startDate", "endDate", "windowSize", "analysisType", "lambda"]

/-! ## RollingCorrelationEngine, modelled from the spec (§4.2)

The engine itself is not in the source tree; only the heatmap renderer
(`src/frontend/src/components/visualization/CorrelationHeatmap.jsx`) that
consumes its matrices is. An `AlignedPanel` is a row-by-asset table of
returns (a total function on `Nat` indices; validity bounds appear as theorem
hypotheses). For a window of size `w` ending at row `i` (inclusive), the
window rows are `i + 1 - w + k` for `k < w`. The sample Pearson correlation
is the ratio of centered cross-products; its `1/(w-1)` normalisation cancels
between numerator and denominator and is omitted. The spec's numeric policy
for a zero-variance asset in the window (correlation 0 off the diagonal,
1 on it) is the first branch. -/

/-- Row index of offset `k` inside the window of size `w` ending at row `i`. -/
def windowRow (w i k : Nat) : Nat := i + 1 - w + k

/-- Modelled from the spec: mean of asset series `x` over the window of size
`w` ending at row `i`. -/
noncomputable def winMean (x : Nat → ℝ) (w i : Nat) : ℝ :=
  (∑ k ∈ Finset.range w, x (windowRow w i k)) / w

/-- Modelled from the spec: centered sum of squares (variance up to the
`1/(w-1)` factor) of `x` over the window of size `w` ending at `i`. -/
noncomputable def winVar (x : Nat → ℝ) (w i : Nat) : ℝ :=
  ∑ k ∈ Finset.range w, (x (windowRow w i k) - winMean x w i) ^ 2

/-- Modelled from the spec: centered cross-product sum (covariance up to the
`1/(w-1)` factor) of `x` and `y` over the window of size `w` ending at `i`. -/
noncomputable def winCov (x y : Nat → ℝ) (w i : Nat) : ℝ :=
  ∑ k ∈ Finset.range w, (x (windowRow w i k) - winMean x w i) *
    (y (windowRow w i k) - winMean y w i)

/-- Asset column `a` of an aligned panel `p : row → asset → return`. -/
noncomputable def panelCol (p : Nat → Nat → ℝ) (a : Nat) : Nat → ℝ :=
  fun r => p r a

/-- Modelled from the spec: entry `(a, b)` of the CorrelationMatrix for the
window of size `w` ending at row `i` of panel `p`. Zero-variance policy
(§4.2): if either asset has zero variance in the window, the entry is 0 off
the diagonal and 1 on it; otherwise it is the sample Pearson correlation.
The matrix is square by construction: both dimensions are indexed by the
same asset indices. -/
noncomputable def corrMatrix (p : Nat → Nat → ℝ) (w i : Nat) (a b : Nat) : ℝ :=
  if winVar (panelCol p a) w i = 0 ∨ winVar (panelCol p b) w i = 0 then
    (if a = b then 1 else 0)
  else
    winCov (panelCol p a) (panelCol p b) w i /
      (Real.sqrt (winVar (panelCol p a) w i) * Real.sqrt (winVar (panelCol p b) w i))

/-- The heatmap renderer's fixed color-scale lower bound, `zmin: -1` in
`CorrelationHeatmap.jsx`. -/
noncomputable def zmin : ℝ := -1

/-- The heatmap renderer's fixed color-scale upper bound, `zmax: 1` in
`CorrelationHeatmap.jsx`. -/
noncomputable def zmax : ℝ := 1

/-- The floating-point tolerance named by the spec's testable properties,
1e-9. -/
noncomputable def corrTol : ℝ := 1 / 10 ^ 9

/-! ## Theorems -/

/-- C1: the segment list produced by the `EffectTimeline` array reduction is
NOT the segment list of the spec's two-state machine. On the effects series
`[true, true]` — a single maximal run of `true` — the reduction pushes a new
open segment at every `true` index whose predecessor segment is still open
(its guard `!acc[acc.length-1].end` tests for an OPEN last segment, where an
intent of one-segment-per-run requires a closed one), yielding two open
segments, while the machine yields exactly one segment covering the run. -/
theorem c1_reduction_differs_from_machine :
    effectPeriods [true, true] = [⟨0, none⟩, ⟨1, none⟩] ∧
    machineSegments [true, true] = [⟨0, none⟩] ∧
    effectPeriods [true, true] ≠ machineSegments [true, true] ∧
    effectPeriods [true, false, true] = [⟨0, some 1⟩] ∧
    machineSegments [true, false, true] = [⟨0, some 1⟩, ⟨2, none⟩] := by
  decide

/-- C2: the reduction's output violates the claimed invariants. On
`[true, true]` it produces the two open segments `{start 0}` and `{start 1}`,
whose index ranges (open segments extend to the end of the series) overlap,
so the pairwise non-overlap check fails. -/
theorem c2_invariants_fail_on_reduction :
    effectPeriods [true, true] = [⟨0, none⟩, ⟨1, none⟩] ∧
    segsDisjointB 2 ⟨0, none⟩ ⟨1, none⟩ = false ∧
    pairwiseB (segsDisjointB 2) (effectPeriods [true, true]) = false := by
  decide

/-- C3: the reduction's output violates the claimed condition-faithfulness.
On `[true, true, false]` it produces the open segment `{start 0, end null}`
alongside `{start 1, end 2}`; the open segment's range runs to the series
end, but the effect condition is `false` at index 2. -/
theorem c3_faithfulness_fails_on_reduction :
    effectPeriods [true, true, false] = [⟨0, none⟩, ⟨1, some 2⟩] ∧
    segFaithfulB [true, true, false] ⟨0, none⟩ = false ∧
    (effectPeriods [true, true, false]).all (segFaithfulB [true, true, false]) = false := by
  decide

/-- C4: for every Dashboard state, the body `handleAnalysis` sends to the
analyze endpoint has exactly the keys `window_size` and `features`; none of
the six field names of the spec's inbound request interface
(`assetIds, startDate, endDate, windowSize, analysisType, lambda`) occurs
among them, so the request never carries all six fields. -/
theorem c4_request_misses_spec_fields (s : DashboardState) :
    analyzeRequestKeys s = ["window_size", "features"] ∧
    (∀ f ∈ specRequestFields, f ∉ analyzeRequestKeys s) ∧
    ¬ specRequestFields ⊆ analyzeRequestKeys s := by
  have hkeys : analyzeRequestKeys s = ["window_size", "features"] := rfl
  refine ⟨hkeys, ?_, ?_⟩
  · rw [hkeys]
    decide
  · intro hsub
    have h1 : "assetIds" ∈ analyzeRequestKeys s := hsub (by decide)
    rw [hkeys] at h1
    exact absurd h1 (by decide)

/-- C5, counterexample: the repository's store module does define a
process-wide mutable result store — applying `setAnalysisResults` to the
module's initial state changes the held `analysisResults`, so analysis
results can be held in module-level mutable state, contrary to the claim. -/
theorem c5_counterexample_store_is_mutable :
    (setAnalysisResults [("AAPL", "segments")] initialAnalysisStore).analysisResults ≠
      initialAnalysisStore.analysisResults := by
  decide

/-- C5, amended: the store module defines a module-level mutable result
store: its `analysisResults` field is initially empty and
`setAnalysisResults` stores the supplied results into the store state. -/
theorem c5_store_holds_set_results :
    initialAnalysisStore.analysisResults = [] ∧
    ∀ (r : AnalysisResultsObj) (s : AnalysisStoreState),
      (setAnalysisResults r s).analysisResults = r :=
  ⟨rfl, fun _ _ => rfl⟩

/-- C6: the `EffectTimeline` segment computation is deterministic — it is a
pure function of the component's `data` prop, and any two prop records that
agree on the `effects`, `returns` and `thresholds` series yield identical
segment lists (the computation reads no other state). -/
theorem c6_detection_deterministic (d1 d2 : TimelineData)
    (heff : d1.effects = d2.effects) (_hret : d1.returns = d2.returns)
    (_hthr : d1.thresholds = d2.thresholds) :
    computeEffectPeriods d1 = computeEffectPeriods d2 := by
  unfold computeEffectPeriods
  rw [heff]

/-- C6 witness: two concrete prop records differing only in their dates give
identical segment lists. -/
theorem c6_detection_deterministic_witness :
    computeEffectPeriods ⟨["2024-01-01"], [1], [2], [true]⟩ =
      computeEffectPeriods ⟨["2024-01-02"], [1], [2], [true]⟩ :=
  c6_detection_deterministic _ _ rfl rfl rfl

/-- C7: every lambda value the sensitivity slider can produce lies in
[1.0, 3.0], the range `ThresholdEstimator.estimate` requires, so the
`InvalidParameterError` failure is unreachable for requests assembled through
the controls. -/
theorem c7_slider_lambda_always_valid (v : ℚ) (h : SliderProducible v) :
    (1 ≤ v ∧ v ≤ 3) ∧ estimateAccepts v = true := by
  obtain ⟨k, hv, hle⟩ := h
  have hk : (0 : ℚ) ≤ (k : ℚ) := Nat.cast_nonneg k
  have hs : (0 : ℚ) ≤ sliderStep := by norm_num [sliderStep]
  have h1 : (1 : ℚ) ≤ v := by
    rw [hv]
    unfold sliderMin
    nlinarith
  have h3 : v ≤ 3 := by
    unfold sliderMax at hle
    exact hle
  refine ⟨⟨h1, h3⟩, ?_⟩
  simp only [estimateAccepts, Bool.and_eq_true, decide_eq_true_eq]
  exact ⟨h1, h3⟩

/-- C7 witness: the slider's default value 2.0 (ten steps above the minimum)
is producible and accepted by the estimator. -/
theorem c7_slider_lambda_always_valid_witness :
    SliderProducible 2 ∧ ((1 ≤ (2 : ℚ) ∧ (2 : ℚ) ≤ 3) ∧ estimateAccepts 2 = true) :=
  ⟨⟨10, by norm_num [sliderMin, sliderStep], by norm_num [sliderMax]⟩,
   c7_slider_lambda_always_valid 2
     ⟨10, by norm_num [sliderMin, sliderStep], by norm_num [sliderMax]⟩⟩

/-- Centered sums of squares are nonnegative. -/
lemma winVar_nonneg (x : Nat → ℝ) (w i : Nat) : 0 ≤ winVar x w i :=
  Finset.sum_nonneg fun _ _ => sq_nonneg _

/-- The centered cross-product sum is symmetric in its two series. -/
lemma winCov_comm (x y : Nat → ℝ) (w i : Nat) : winCov x y w i = winCov y x w i :=
  Finset.sum_congr rfl fun _ _ => mul_comm _ _

/-- The centered cross-product of a series with itself is its centered sum of
squares. -/
lemma winCov_self (x : Nat → ℝ) (w i : Nat) : winCov x x w i = winVar x w i :=
  Finset.sum_congr rfl fun _ _ => (pow_two _).symm

/-- Cauchy-Schwarz for the window statistics. -/
lemma winCov_sq_le (x y : Nat → ℝ) (w i : Nat) :
    winCov x y w i ^ 2 ≤ winVar x w i * winVar y w i := by
  unfold winCov winVar
  exact Finset.sum_mul_sq_le_sq_mul_sq (Finset.range w)
    (fun k => x (windowRow w i k) - winMean x w i)
    (fun k => y (windowRow w i k) - winMean y w i)

/-- The covariance is bounded by the product of the standard deviations. -/
lemma abs_winCov_le (x y : Nat → ℝ) (w i : Nat) :
    |winCov x y w i| ≤ Real.sqrt (winVar x w i) * Real.sqrt (winVar y w i) := by
  rw [← Real.sqrt_sq_eq_abs, ← Real.sqrt_mul (winVar_nonneg x w i)]
  exact Real.sqrt_le_sqrt (winCov_sq_le x y w i)

/-- The correlation matrix is symmetric. -/
lemma corrMatrix_symm (p : Nat → Nat → ℝ) (w i a b : Nat) :
    corrMatrix p w i a b = corrMatrix p w i b a := by
  unfold corrMatrix
  by_cases h : winVar (panelCol p a) w i = 0 ∨ winVar (panelCol p b) w i = 0
  · rw [if_pos h, if_pos (Or.symm h)]
    by_cases hab : a = b
    · rw [if_pos hab, if_pos hab.symm]
    · rw [if_neg hab, if_neg (fun hba => hab hba.symm)]
  · rw [if_neg h, if_neg (fun hc => h (Or.symm hc)), winCov_comm, mul_comm]

/-- The correlation matrix has an exact unit diagonal. -/
lemma corrMatrix_diag (p : Nat → Nat → ℝ) (w i a : Nat) :
    corrMatrix p w i a a = 1 := by
  unfold corrMatrix
  by_cases h : winVar (panelCol p a) w i = 0
  · rw [if_pos (Or.inl h), if_pos rfl]
  · rw [if_neg (fun hc => hc.elim h h), winCov_self,
      Real.mul_self_sqrt (winVar_nonneg _ _ _), div_self h]

/-- Off-diagonal entries with nonzero variances lie in [-1, 1]. -/
lemma corrMatrix_bounds (p : Nat → Nat → ℝ) (w i a b : Nat)
    (hva : winVar (panelCol p a) w i ≠ 0) (hvb : winVar (panelCol p b) w i ≠ 0) :
    -1 ≤ corrMatrix p w i a b ∧ corrMatrix p w i a b ≤ 1 := by
  have hva' : 0 < winVar (panelCol p a) w i :=
    (winVar_nonneg _ _ _).lt_of_ne (Ne.symm hva)
  have hvb' : 0 < winVar (panelCol p b) w i :=
    (winVar_nonneg _ _ _).lt_of_ne (Ne.symm hvb)
  have hd : 0 < Real.sqrt (winVar (panelCol p a) w i) *
      Real.sqrt (winVar (panelCol p b) w i) :=
    mul_pos (Real.sqrt_pos.mpr hva') (Real.sqrt_pos.mpr hvb')
  unfold corrMatrix
  rw [if_neg (fun hc => hc.elim hva hvb)]
  refine abs_le.mp ?_
  rw [abs_div, abs_of_pos hd]
  exact div_le_one_of_le₀ (abs_winCov_le _ _ _ _) hd.le

/-- C8: every correlation matrix of the spec-modelled rolling engine, at any
valid window, is symmetric (and square by construction), has each diagonal
value within 1e-9 of 1.0, and — for asset pairs with nonzero variance in the
window — has every entry within the tolerance-widened range
[zmin - 1e-9, zmax + 1e-9] that the heatmap renderer assumes with its fixed
`zmin: -1` and `zmax: 1`. -/
theorem c8_correlation_matrix_props (p : Nat → Nat → ℝ) (w i a b : Nat)
    (_hw : 2 ≤ w) (_hi : w - 1 ≤ i) :
    corrMatrix p w i a b = corrMatrix p w i b a ∧
    |corrMatrix p w i a a - 1| ≤ corrTol ∧
    (winVar (panelCol p a) w i ≠ 0 → winVar (panelCol p b) w i ≠ 0 →
      zmin - corrTol ≤ corrMatrix p w i a b ∧ corrMatrix p w i a b ≤ zmax + corrTol) := by
  have htol : (0 : ℝ) ≤ corrTol := by norm_num [corrTol]
  refine ⟨corrMatrix_symm p w i a b, ?_, ?_⟩
  · rw [corrMatrix_diag]
    simpa using htol
  · intro hva hvb
    obtain ⟨hlo, hhi⟩ := corrMatrix_bounds p w i a b hva hvb
    unfold zmin zmax
    constructor <;> linarith

/-- A concrete two-asset panel for the C8 witness: row `r`, asset `a` holds
the return `r * (a + 1)`. -/
noncomputable def wPanel : Nat → Nat → ℝ :=
  fun r a => (r : ℝ) * ((a : ℝ) + 1)

/-- C8 witness: the window of size 2 ending at row 1 of the concrete panel
has nonzero variance in both asset columns, and the theorem yields the
renderer's range bound for the off-diagonal entry there. -/
theorem c8_correlation_matrix_props_witness :
    (2 ≤ 2 ∧ 2 - 1 ≤ 1) ∧
    (zmin - corrTol ≤ corrMatrix wPanel 2 1 0 1 ∧
      corrMatrix wPanel 2 1 0 1 ≤ zmax + corrTol) :=
  ⟨⟨by decide, by decide⟩,
   (c8_correlation_matrix_props wPanel 2 1 0 1 (by decide) (by decide)).2.2
     (by norm_num [winVar, winMean, windowRow, panelCol, wPanel, Finset.sum_range_succ])
     (by norm_num [winVar, winMean, windowRow, panelCol, wPanel, Finset.sum_range_succ])⟩

/-- C9: the remove button of `DatasetSelector` carries no `value` attribute,
so `handleDatasetChange` filters the dataset list by the empty string; on any
dataset list with no empty-string entry the click therefore leaves the list
unchanged — a named dataset is never removed. -/
theorem c9_remove_click_is_noop (datasets : List String)
    (h : "" ∉ datasets) :
    handleDatasetChange datasets removeButtonValue "remove" = datasets := by
  unfold handleDatasetChange removeButtonValue
  rw [if_neg (by decide), if_pos rfl]
  refine List.filter_eq_self.mpr fun a ha => ?_
  simp only [ne_eq, decide_eq_true_eq]
  exact fun contra => h (contra ▸ ha)

/-- C9 witness: on the concrete list `["sp500", "nasdaq"]` the remove click
changes nothing. -/
theorem c9_remove_click_is_noop_witness :
    "" ∉ ["sp500", "nasdaq"] ∧
      handleDatasetChange ["sp500", "nasdaq"] removeButtonValue "remove" =
        ["sp500", "nasdaq"] :=
  ⟨by decide, c9_remove_click_is_noop ["sp500", "nasdaq"] (by decide)⟩

/-- C10: each setter of the analysis store modifies only its own field —
for every prior state, `setAnalysisResults` leaves `isLoading` and `error`
unchanged, `setIsLoading` leaves `analysisResults` and `error` unchanged, and
`setError` leaves `analysisResults` and `isLoading` unchanged. -/
theorem c10_setters_frame (s : AnalysisStoreState) (r : AnalysisResultsObj)
    (l : Bool) (e : Option String) :
    (setAnalysisResults r s).isLoading = s.isLoading ∧
    (setAnalysisResults r s).error = s.error ∧
    (setIsLoading l s).analysisResults = s.analysisResults ∧
    (setIsLoading l s).error = s.error ∧
    (setError e s).analysisResults = s.analysisResults ∧
    (setError e s).isLoading = s.isLoading :=
  ⟨rfl, rfl, rfl, rfl, rfl, rfl⟩

end MlUi
